import Mathlib

/-!
Shallow embedding of the request-handling core of `pyramid_saml2`, a
SAML 2.0 Identity Provider (IdP) for the Pyramid web framework, together
with proofs about its handler-resolution loop, its signing policy, and
its login/logout view functions.

Sources embedded here:
- `pyramid_saml2/idp/views.py` — the view functions `login_begin`,
  `login_process` and `logout`;
- `pyramid_saml2/idp/idp.py` — the `IdentityProvider` configuration
  accessors `should_sign_responses`, `get_idp_signer`,
  `get_user_nameid`, `get_user_email` and `is_valid_redirect`.

Python exceptions are modelled as an inductive type `Exc`; a Python
function that may raise is embedded as a Lean function into
`Except Exc _`.  Web-framework collaborators (routing, session storage,
templating, the abstract authentication callbacks `login_required`,
`is_user_logged_in`, `logout` on the IdP context) are outside the core:
the view models below describe the behaviour after `login_required` has
returned normally, i.e. for an authenticated user.
-/

namespace PyramidSaml2

/-- Python exception values that can flow through the IdP core.
`CannotHandleAssertion` and `UserNotAuthorized` come from
`pyramid_saml2.exceptions`; `ValueError`, `NotImplementedError` and
`NameError` are Python builtins.  `UnsupportedAttribute` is the error
class the specification names for unmapped name-id formats (the source
under `src/` never raises it — see `get_user_nameid`).  `OtherError`
stands for any further exception class (for example `TypeError`),
carrying the class name and the message. -/
inductive Exc where
  | CannotHandleAssertion (msg : String)
  | ValueError (msg : String)
  | UserNotAuthorized (msg : String)
  | NotImplementedError (msg : String)
  | UnsupportedAttribute (msg : String)
  | NameError (msg : String)
  | OtherError (cls : String) (msg : String)
deriving DecidableEq

/-- The exceptions that the resolution loop in `login_process` catches:
the `except (CannotHandleAssertion, ValueError)` clause of
`views.py` lines 44-46.  Every other exception escapes the loop. -/
def Exc.caughtByResolver : Exc → Bool
  | .CannotHandleAssertion _ => true
  | .ValueError _ => true
  | _ => false

/-- Equality of embedded fallible results is decidable, so concrete
runs of the model can be checked by evaluation. -/
instance {ε α : Type} [DecidableEq ε] [DecidableEq α] :
    DecidableEq (Except ε α)
  | Except.ok a, Except.ok b =>
    if h : a = b then isTrue (congrArg Except.ok h)
    else isFalse fun hh => h (Except.ok.inj hh)
  | Except.ok _, Except.error _ => isFalse fun hh => Except.noConfusion hh
  | Except.error _, Except.ok _ => isFalse fun hh => Except.noConfusion hh
  | Except.error e, Except.error f =>
    if h : e = f then isTrue (congrArg Except.error h)
    else isFalse fun hh => h (Except.error.inj hh)

/-- Does an `Except` result carry an `UnsupportedAttribute` error? -/
def isUnsupportedAttributeError : Except Exc String → Bool
  | .error (.UnsupportedAttribute _) => true
  | _ => false

/-- One Service Provider handler (`SPHandler`), reduced to the
capability surface the views use: the three trial steps called by
`login_process` and the redirect predicate used by `logout`.
A parsed AuthnRequest and a built Response are kept opaque as strings,
and a response context (the dict built by `get_response_context`) is an
opaque string as well; each step may raise. -/
structure SPHandler where
  parse_authn_request : String → Except Exc String
  make_response : String → Except Exc String
  get_response_context : String → String → String → Except Exc String
  is_valid_redirect : String → Bool

/-- One handler's trial, exactly the `try:` body of `login_process`
(`views.py` lines 41-43): `parse_authn_request`, then `make_response`,
then `get_response_context`, each feeding the next, stopping at the
first raise. -/
def SPHandler.trial (h : SPHandler) (saml_request relay_state : String) :
    Except Exc String :=
  (h.parse_authn_request saml_request).bind fun req =>
    (h.make_response req).bind fun resp =>
      h.get_response_context req resp relay_state

/-- The handler-resolution loop of `login_process` (`views.py` lines
39-50): try each handler in configuration order; a trial failing with a
resolver-caught exception falls through to the next handler, a trial
failing otherwise re-raises, a successful trial returns its context,
and an exhausted list raises `CannotHandleAssertion`.  The second
component counts how many handlers had their trial started, so that
"no later handler is invoked" is expressible; it is instrumentation,
not part of the source's return value. -/
def resolve : List SPHandler → String → String → Except Exc String × Nat
  | [], _, _ =>
    (.error (.CannotHandleAssertion
      "No Service Provider handlers could handle this SAML request"), 0)
  | h :: rest, sr, rs =>
    match h.trial sr rs with
    | .ok ctx => (.ok ctx, 1)
    | .error e =>
      if e.caughtByResolver then
        ((resolve rest sr rs).1, (resolve rest sr rs).2 + 1)
      else
        (.error e, 1)

/-- Every handler in the list fails its trial on the given inputs with
an exception the resolver catches (`CannotHandleAssertion` or
`ValueError`). -/
def allCaught (handlers : List SPHandler) (sr rs : String) : Prop :=
  ∀ g ∈ handlers, ∃ e, g.trial sr rs = Except.error e ∧
    e.caughtByResolver = true

/-- The session mapping, restricted to the two keys the views read and
write; `none` models an absent key. -/
structure Session where
  SAMLRequest : Option String
  RelayState : Option String
deriving DecidableEq

/-- The request parameters the views read (`request.params`); `none`
models an absent parameter. -/
structure Params where
  SAMLRequest : Option String
  RelayState : Option String
  redirect_to : Option String
deriving DecidableEq

/-- Outcome of the `login_begin` view: either the literal error string
it returns, or the redirect to the process route issued via
`HTTPFound(request.route_url(...))`. -/
inductive BeginResult where
  | errorPage (msg : String)
  | redirect (route : String)
deriving DecidableEq

/-- The `login_begin` view (`views.py` lines 14-20).  Python's
`if not saml_request:` treats both an absent parameter and an empty
string as missing.  On success both session keys are written, with
`RelayState` defaulting to the empty string
(`request.params.get('RelayState', '')`).  The view never constructs
the IdP context or any SP handler.  Returns the result together with
the session as left after the call. -/
def login_begin (params : Params) (session : Session) :
    BeginResult × Session :=
  match params.SAMLRequest with
  | none => (.errorPage "SAMLRequest is missing", session)
  | some sr =>
    if sr = "" then
      (.errorPage "SAMLRequest is missing", session)
    else
      (.redirect "pyramid_saml2_idp_login_process",
        { SAMLRequest := some sr,
          RelayState := some (params.RelayState.getD "") })

/-- Outcome of the `login_process` view: one of the literal error
strings it returns, the rendered template context of the winning
handler (merged with the `idp` key in the source), or a raised
exception. -/
inductive ProcessResult where
  | errorPage (msg : String)
  | rendered (ctx : String)
  | raised (e : Exc)
deriving DecidableEq

/-- The `login_process` view after `login_required` has passed
(`views.py` lines 27-50).  The two session-membership checks keep the
source's strings verbatim, including the `"misssing"` typo.  The second
component is the number of handlers whose trial was started (0 when the
view returns before reaching the loop). -/
def login_process (session : Session) (handlers : List SPHandler) :
    ProcessResult × Nat :=
  match session.SAMLRequest with
  | none => (.errorPage "SAMLRequest is misssing", 0)
  | some sr =>
    match session.RelayState with
    | none => (.errorPage "RelayState is missing", 0)
    | some rs =>
      match resolve handlers sr rs with
      | (.ok ctx, n) => (.rendered ctx, n)
      | (.error e, n) => (.raised e, n)

/-- The IdP configuration dict (`SAML2_IDP`): an optional certificate,
an optional private key, and the autosubmit flag.  Key and certificate
handles are opaque strings. -/
structure IdpConfig where
  certificate : Option String
  private_key : Option String
  autosubmit : Bool
deriving DecidableEq

/-- `IdentityProvider.get_idp_certificate` (`idp.py`): the configured
certificate, if any. -/
def get_idp_certificate (c : IdpConfig) : Option String := c.certificate

/-- `IdentityProvider.get_idp_private_key` (`idp.py`): the configured
private key, if any. -/
def get_idp_private_key (c : IdpConfig) : Option String := c.private_key

/-- `IdentityProvider.should_sign_responses` (`idp.py` lines 71-73):
`self.get_idp_certificate() is not None and
self.get_idp_private_key() is not None`. -/
def should_sign_responses (c : IdpConfig) : Bool :=
  (get_idp_certificate c).isSome && (get_idp_private_key c).isSome

/-- A signing capability (`RsaSha1Signer`, the default
`idp_signer_class`), opaque except for the private key it was
constructed with. -/
structure Signer where
  private_key : String
deriving DecidableEq

/-- `IdentityProvider.get_idp_signer` (`idp.py` lines 99-103): builds
`self.idp_signer_class(private_key)` when a private key is configured;
the Python function falls off the end (returning `None`) otherwise. -/
def get_idp_signer (c : IdpConfig) : Option Signer :=
  match get_idp_private_key c with
  | some pk => some ⟨pk⟩
  | none => none

/-- A user object, reduced to the one field the default IdP context
reads. -/
structure User where
  email : String
deriving DecidableEq

/-- `IdentityProvider.get_user_email` (`idp.py` lines 181-183):
`return user.email`. -/
def get_user_email (user : User) : String := user.email

/-- `IdentityProvider.get_user_nameid` (`idp.py` lines 169-179): the
email-address URN maps to `get_user_email(user)`; every other attribute
raises the builtin `NotImplementedError`, with the source's message
`"Can\x27t fetch attribute {} from user".format(attribute)`. -/
def get_user_nameid (user : User) (attrib : String) :
    Except Exc String :=
  if attrib = "urn:oasis:names:tc:SAML:2.0:nameid-format:emailAddress"
  then
    .ok (get_user_email user)
  else
    .error (.NotImplementedError
      ("Can\x27t fetch attribute " ++ attrib ++ " from user"))

/-- `IdentityProvider.is_valid_redirect` (`idp.py` lines 210-219): true
when any configured SP handler accepts the URL. -/
def is_valid_redirect (handlers : List SPHandler) (url : String) : Bool :=
  handlers.any fun h => h.is_valid_redirect url

/-- Outcome of the `logout` view: a redirect, the generic logged-out
page the docstring promises (never actually produced by the source —
see `logout`), or a raised exception. -/
inductive LogoutResult where
  | redirect (url : String)
  | loggedOutPage
  | raised (e : Exc)
deriving DecidableEq

/-- One iteration of the `logout` view's argument loop: an absent
parameter is skipped, and a present one is returned as a redirect
target exactly when it is non-empty (Python truthiness) and accepted by
`is_valid_redirect`. -/
def tryRedirectArg (handlers : List SPHandler) (arg : Option String) :
    Option String :=
  match arg with
  | none => none
  | some url =>
    if url = "" then none
    else if is_valid_redirect handlers url then some url else none

/-- The `logout` view after `login_required` has passed (`views.py`
lines 57-74).  It first invokes `idp.logout()` unconditionally — the
second component records that this host callback was invoked — then
scans the parameters `RelayState` and `redirect_to` in that order for a
valid redirect target.  When neither yields one, the source executes
`return {"idp": idp, **context}` with no variable `context` in scope,
so Python raises `NameError` instead of rendering the logged-out
page. -/
def logout (params : Params) (handlers : List SPHandler) :
    LogoutResult × Bool :=
  let result :=
    match tryRedirectArg handlers params.RelayState with
    | some url => LogoutResult.redirect url
    | none =>
      match tryRedirectArg handlers params.redirect_to with
      | some url => LogoutResult.redirect url
      | none =>
        LogoutResult.raised (.NameError "name \x27context\x27 is not defined")
  (result, true)

/-! ### Concrete handlers used as witnesses and counterexamples -/

/-- A handler whose trial always succeeds, producing the given response
context. -/
def acceptingHandler (ctx : String) : SPHandler where
  parse_authn_request := fun sr => .ok sr
  make_response := fun req => .ok req
  get_response_context := fun _ _ _ => .ok ctx
  is_valid_redirect := fun _ => false

/-- A handler that rejects every request with the deliberate
`CannotHandleAssertion` signal at the parse step. -/
def rejectingHandler : SPHandler where
  parse_authn_request := fun _ =>
    .error (.CannotHandleAssertion "handler does not recognize this issuer")
  make_response := fun req => .ok req
  get_response_context := fun _ _ _ => .ok ""
  is_valid_redirect := fun _ => false

/-- A handler whose parse step raises an exception the resolver does not
catch (a `TypeError`). -/
def fatalHandler : SPHandler where
  parse_authn_request := fun _ =>
    .error (.OtherError "TypeError" "unexpected payload type")
  make_response := fun req => .ok req
  get_response_context := fun _ _ _ => .ok ""
  is_valid_redirect := fun _ => false

/-- A handler that accepts exactly one URL as a redirect target and
rejects every authentication request. -/
def redirectHandler (target : String) : SPHandler where
  parse_authn_request := fun _ =>
    .error (.CannotHandleAssertion "handler does not recognize this issuer")
  make_response := fun req => .ok req
  get_response_context := fun _ _ _ => .ok ""
  is_valid_redirect := fun url => url = target

/-! ### Resolver lemmas -/

/-- Prepending a block of handlers that all fail with resolver-caught
exceptions leaves the resolution result unchanged and adds one started
trial per prepended handler. -/
theorem resolve_append_caught (pre rest : List SPHandler) (sr rs : String)
    (hpre : allCaught pre sr rs) :
    resolve (pre ++ rest) sr rs
      = ((resolve rest sr rs).1, (resolve rest sr rs).2 + pre.length) := by
  induction pre with
  | nil => simp
  | cons g pre ih =>
    obtain ⟨e, he, hc⟩ := hpre g (List.mem_cons_self g pre)
    have ih2 := ih (fun k hk => hpre k (List.mem_cons_of_mem g hk))
    simp only [List.cons_append, resolve, he, hc, if_true, List.append_eq]
    rw [ih2]
    simp only [List.length_cons, Prod.mk.injEq]
    exact ⟨trivial, by omega⟩

/-! ### Claims about the signing policy -/

/-- Claim C4: `should_sign_responses()` is true iff both the
certificate and the private key are configured; evaluated over all four
presence/absence combinations. -/
theorem should_sign_responses_iff_both_present (c : IdpConfig)
    (cert pk : String) (b : Bool) :
    (should_sign_responses c = true ↔
      c.certificate ≠ none ∧ c.private_key ≠ none)
    ∧ should_sign_responses ⟨some cert, some pk, b⟩ = true
    ∧ should_sign_responses ⟨none, some pk, b⟩ = false
    ∧ should_sign_responses ⟨some cert, none, b⟩ = false
    ∧ should_sign_responses ⟨none, none, b⟩ = false := by
  refine ⟨?_, rfl, rfl, rfl, rfl⟩
  cases c with
  | mk cert2 pk2 b2 =>
    cases cert2 <;> cases pk2 <;>
      simp [should_sign_responses, get_idp_certificate,
        get_idp_private_key]

/-- Claim C5, counterexample: with a private key configured but no
certificate, `should_sign_responses()` is false yet `get_idp_signer()`
still returns a signer bound to the key — refuting the claim that
`get_idp_signer()` is `None` whenever `should_sign_responses()` is
false. -/
theorem get_idp_signer_counterexample :
    should_sign_responses ⟨none, some "idp-private-key", false⟩ = false
    ∧ get_idp_signer ⟨none, some "idp-private-key", false⟩
        = some ⟨"idp-private-key"⟩ := by
  exact ⟨rfl, rfl⟩

/-- Claim C5, amended: `get_idp_signer()` returns a signer bound to the
configured private key exactly when a private key is configured, and
`None` only when the private key is absent — independently of the
certificate, hence not governed by `should_sign_responses()`. -/
theorem get_idp_signer_eq_map_private_key (c : IdpConfig) :
    get_idp_signer c = Option.map Signer.mk (get_idp_private_key c) := by
  cases c with
  | mk cert pk b =>
    cases pk <;> rfl

/-! ### Claims about the name-id mapping -/

/-- Claim C6, counterexample: for a non-email attribute URN the default
`get_user_nameid` fails with the builtin `NotImplementedError`, not
with an `UnsupportedAttribute` error as the claim states. -/
theorem get_user_nameid_counterexample :
    get_user_nameid ⟨"user@example.com"⟩
        "urn:oasis:names:tc:SAML:2.0:nameid-format:persistent"
      = Except.error (Exc.NotImplementedError
          "Can\x27t fetch attribute urn:oasis:names:tc:SAML:2.0:nameid-format:persistent from user")
    ∧ isUnsupportedAttributeError
        (get_user_nameid ⟨"user@example.com"⟩
          "urn:oasis:names:tc:SAML:2.0:nameid-format:persistent")
      = false := by
  exact ⟨rfl, rfl⟩

/-- Claim C6, amended: for every user, the default `get_user_nameid`
returns the user's email for the email-address URN and fails with the
builtin `NotImplementedError` (carrying the source's message) for every
other attribute URN. -/
theorem get_user_nameid_default_mapping (user : User) (attrib : String)
    (hne : attrib ≠
      "urn:oasis:names:tc:SAML:2.0:nameid-format:emailAddress") :
    get_user_nameid user
        "urn:oasis:names:tc:SAML:2.0:nameid-format:emailAddress"
      = Except.ok (get_user_email user)
    ∧ get_user_nameid user attrib
      = Except.error (Exc.NotImplementedError
          ("Can\x27t fetch attribute " ++ attrib ++ " from user")) := by
  exact ⟨rfl, by simp [get_user_nameid, hne]⟩

/-- Witness for `get_user_nameid_default_mapping` at a concrete user and
a concrete non-email URN. -/
theorem get_user_nameid_default_mapping_witness :
    get_user_nameid ⟨"user@example.com"⟩
        "urn:oasis:names:tc:SAML:2.0:nameid-format:emailAddress"
      = Except.ok (get_user_email ⟨"user@example.com"⟩)
    ∧ get_user_nameid ⟨"user@example.com"⟩
        "urn:oasis:names:tc:SAML:2.0:nameid-format:transient"
      = Except.error (Exc.NotImplementedError
          ("Can\x27t fetch attribute "
            ++ "urn:oasis:names:tc:SAML:2.0:nameid-format:transient"
            ++ " from user")) :=
  get_user_nameid_default_mapping ⟨"user@example.com"⟩
    "urn:oasis:names:tc:SAML:2.0:nameid-format:transient" (by decide)

/-- Resolution of a list headed by a handler whose trial succeeds stops
at that handler with its context. -/
theorem resolve_cons_ok (h : SPHandler) (rest : List SPHandler)
    (sr rs ctx : String) (hok : h.trial sr rs = Except.ok ctx) :
    resolve (h :: rest) sr rs = (Except.ok ctx, 1) := by
  simp [resolve, hok]

/-! ### Claims about the resolution loop -/

/-- Claim C1, counterexample: with a first handler whose trial raises a
`TypeError` (not caught by the resolver) and a second handler whose
trial succeeds, the second handler is the first whose trial completes
without raising, yet `login_process` raises the `TypeError` instead of
returning that handler's response context — so the claim fails when an
earlier handler's failure is not a `CannotHandleAssertion` or a value
error. -/
theorem first_success_not_returned_counterexample :
    fatalHandler.trial "saml-req" "relay"
      = Except.error (Exc.OtherError "TypeError" "unexpected payload type")
    ∧ (Exc.OtherError "TypeError" "unexpected payload type").caughtByResolver
      = false
    ∧ (acceptingHandler "sp-context").trial "saml-req" "relay"
      = Except.ok "sp-context"
    ∧ (login_process ⟨some "saml-req", some "relay"⟩
        [fatalHandler, acceptingHandler "sp-context"]).1
      = ProcessResult.raised (Exc.OtherError "TypeError" "unexpected payload type")
    ∧ (login_process ⟨some "saml-req", some "relay"⟩
        [fatalHandler, acceptingHandler "sp-context"]).1
      ≠ ProcessResult.rendered "sp-context" := by
  decide

/-- Claim C1, amended: for every captured SAMLRequest/RelayState pair,
if each handler before position `i` fails its trial with
`CannotHandleAssertion` or a value error and the handler at position
`i` is the first whose trial (`parse_authn_request`, then
`make_response`, then `get_response_context`) completes without
raising, then `login_process` returns that handler's response context
and no handler after position `i` is invoked (exactly `i + 1` trials
are started). -/
theorem login_process_first_match_wins (pre post : List SPHandler)
    (h : SPHandler) (sr rs ctx : String)
    (hpre : allCaught pre sr rs) (hok : h.trial sr rs = Except.ok ctx) :
    (login_process ⟨some sr, some rs⟩ (pre ++ h :: post)).1
      = ProcessResult.rendered ctx
    ∧ (login_process ⟨some sr, some rs⟩ (pre ++ h :: post)).2
      = pre.length + 1 := by
  have hres : resolve (pre ++ h :: post) sr rs
      = (Except.ok ctx, 1 + pre.length) := by
    rw [resolve_append_caught pre (h :: post) sr rs hpre,
      resolve_cons_ok h post sr rs ctx hok]
  simp only [login_process, hres]
  exact ⟨by trivial, by omega⟩

/-- Witness for `login_process_first_match_wins`: a rejecting handler,
then a succeeding one, then another succeeding one; the middle
handler's context is returned after two started trials. -/
theorem login_process_first_match_wins_witness :
    (login_process ⟨some "saml-req", some "relay"⟩
        ([rejectingHandler] ++ acceptingHandler "ctx-one"
          :: [acceptingHandler "ctx-two"])).1
      = ProcessResult.rendered "ctx-one"
    ∧ (login_process ⟨some "saml-req", some "relay"⟩
        ([rejectingHandler] ++ acceptingHandler "ctx-one"
          :: [acceptingHandler "ctx-two"])).2
      = [rejectingHandler].length + 1 :=
  login_process_first_match_wins [rejectingHandler]
    [acceptingHandler "ctx-two"] (acceptingHandler "ctx-one")
    "saml-req" "relay" "ctx-one"
    (by
      intro g hg
      rw [List.mem_singleton] at hg
      subst hg
      exact ⟨Exc.CannotHandleAssertion "handler does not recognize this issuer",
        rfl, rfl⟩)
    rfl

/-- Claim C2: when every configured handler's trial fails with
`CannotHandleAssertion` or a value error — in particular when there are
no handlers at all — `login_process` raises `CannotHandleAssertion`
with the source's message; since the outcome is a raised exception, no
response context is produced. -/
theorem login_process_all_rejected_raises (handlers : List SPHandler)
    (sr rs : String) (hall : allCaught handlers sr rs) :
    (login_process ⟨some sr, some rs⟩ handlers).1
      = ProcessResult.raised (Exc.CannotHandleAssertion
          "No Service Provider handlers could handle this SAML request") := by
  have hres := resolve_append_caught handlers [] sr rs hall
  rw [List.append_nil] at hres
  simp only [resolve] at hres
  simp only [login_process, hres]

/-- Witness for `login_process_all_rejected_raises` with zero
handlers. -/
theorem login_process_all_rejected_raises_witness :
    (login_process ⟨some "saml-req", some "relay"⟩
        ([] : List SPHandler)).1
      = ProcessResult.raised (Exc.CannotHandleAssertion
          "No Service Provider handlers could handle this SAML request") :=
  login_process_all_rejected_raises [] "saml-req" "relay"
    (by intro g hg; exact absurd hg (List.not_mem_nil g))

/-- Claim C3: exactly `CannotHandleAssertion` and `ValueError` are
caught by the resolver (enumerated over every exception class of the
model); a trial failing with a caught exception makes resolution fall
through to the next handler, while a trial failing with any other
exception makes `login_process` raise that exception with no later
handler tried. -/
theorem resolver_fallback_policy (pre rest : List SPHandler)
    (g : SPHandler) (sr rs m cls : String) (e : Exc)
    (hpre : allCaught pre sr rs)
    (he : g.trial sr rs = Except.error e) :
    Exc.caughtByResolver (Exc.CannotHandleAssertion m) = true
    ∧ Exc.caughtByResolver (Exc.ValueError m) = true
    ∧ Exc.caughtByResolver (Exc.UserNotAuthorized m) = false
    ∧ Exc.caughtByResolver (Exc.NotImplementedError m) = false
    ∧ Exc.caughtByResolver (Exc.UnsupportedAttribute m) = false
    ∧ Exc.caughtByResolver (Exc.NameError m) = false
    ∧ Exc.caughtByResolver (Exc.OtherError cls m) = false
    ∧ (e.caughtByResolver = true →
        resolve (g :: rest) sr rs
          = ((resolve rest sr rs).1, (resolve rest sr rs).2 + 1))
    ∧ (e.caughtByResolver = false →
        (login_process ⟨some sr, some rs⟩ (pre ++ g :: rest)).1
          = ProcessResult.raised e
        ∧ (login_process ⟨some sr, some rs⟩ (pre ++ g :: rest)).2
          = pre.length + 1) := by
  refine ⟨rfl, rfl, rfl, rfl, rfl, rfl, rfl, ?_, ?_⟩
  · intro hc
    simp [resolve, he, hc]
  · intro hc
    have hres : resolve (pre ++ g :: rest) sr rs
        = (Except.error e, 1 + pre.length) := by
      rw [resolve_append_caught pre (g :: rest) sr rs hpre]
      simp [resolve, he, hc]
    simp only [login_process, hres]
    exact ⟨by trivial, by omega⟩

/-- Witness for `resolver_fallback_policy`: a rejecting handler, then a
handler raising `TypeError`, then a handler that would succeed; the
`TypeError` escapes after two started trials and the third handler is
never tried. -/
theorem resolver_fallback_policy_witness :
    Exc.caughtByResolver (Exc.CannotHandleAssertion "m") = true
    ∧ Exc.caughtByResolver (Exc.ValueError "m") = true
    ∧ Exc.caughtByResolver (Exc.UserNotAuthorized "m") = false
    ∧ Exc.caughtByResolver (Exc.NotImplementedError "m") = false
    ∧ Exc.caughtByResolver (Exc.UnsupportedAttribute "m") = false
    ∧ Exc.caughtByResolver (Exc.NameError "m") = false
    ∧ Exc.caughtByResolver (Exc.OtherError "TypeError" "m") = false
    ∧ ((Exc.OtherError "TypeError" "unexpected payload type").caughtByResolver
          = true →
        resolve (fatalHandler :: [acceptingHandler "ctx-two"])
            "saml-req" "relay"
          = ((resolve [acceptingHandler "ctx-two"] "saml-req" "relay").1,
             (resolve [acceptingHandler "ctx-two"] "saml-req" "relay").2 + 1))
    ∧ ((Exc.OtherError "TypeError" "unexpected payload type").caughtByResolver
          = false →
        (login_process ⟨some "saml-req", some "relay"⟩
            ([rejectingHandler] ++ fatalHandler
              :: [acceptingHandler "ctx-two"])).1
          = ProcessResult.raised
              (Exc.OtherError "TypeError" "unexpected payload type")
        ∧ (login_process ⟨some "saml-req", some "relay"⟩
            ([rejectingHandler] ++ fatalHandler
              :: [acceptingHandler "ctx-two"])).2
          = [rejectingHandler].length + 1) :=
  resolver_fallback_policy [rejectingHandler] [acceptingHandler "ctx-two"]
    fatalHandler "saml-req" "relay" "m" "TypeError"
    (Exc.OtherError "TypeError" "unexpected payload type")
    (by
      intro g hg
      rw [List.mem_singleton] at hg
      subst hg
      exact ⟨Exc.CannotHandleAssertion "handler does not recognize this issuer",
        rfl, rfl⟩)
    rfl

/-! ### Claims about the begin, process and logout views -/

/-- Claim C7: a request whose SAMLRequest parameter is absent or empty
makes `login_begin` return the error string and leave the session
untouched (and the view involves no SP handler by construction — see
`login_begin`), while a request with a non-empty SAMLRequest parameter
makes it persist both session keys and redirect to the process
route. -/
theorem login_begin_behavior (p q : Params) (session : Session)
    (sr : String)
    (hp : p.SAMLRequest = none ∨ p.SAMLRequest = some "")
    (hq : q.SAMLRequest = some sr) (hsr : sr ≠ "") :
    (login_begin p session).1 = BeginResult.errorPage "SAMLRequest is missing"
    ∧ (login_begin p session).2 = session
    ∧ (login_begin q session).1
      = BeginResult.redirect "pyramid_saml2_idp_login_process"
    ∧ (login_begin q session).2
      = ⟨some sr, some (q.RelayState.getD "")⟩ := by
  have hfail : login_begin p session
      = (BeginResult.errorPage "SAMLRequest is missing", session) := by
    rcases hp with hp | hp <;> simp [login_begin, hp]
  have hsucc : login_begin q session
      = (BeginResult.redirect "pyramid_saml2_idp_login_process",
         ⟨some sr, some (q.RelayState.getD "")⟩) := by
    simp [login_begin, hq, hsr]
  rw [hfail, hsucc]
  exact ⟨rfl, rfl, rfl, rfl⟩

/-- Witness for `login_begin_behavior`: an absent SAMLRequest parameter
on one request, a non-empty one on another. -/
theorem login_begin_behavior_witness :
    (login_begin ⟨none, some "state", none⟩ ⟨none, none⟩).1
      = BeginResult.errorPage "SAMLRequest is missing"
    ∧ (login_begin ⟨none, some "state", none⟩ ⟨none, none⟩).2
      = (⟨none, none⟩ : Session)
    ∧ (login_begin ⟨some "saml-req", none, none⟩ ⟨none, none⟩).1
      = BeginResult.redirect "pyramid_saml2_idp_login_process"
    ∧ (login_begin ⟨some "saml-req", none, none⟩ ⟨none, none⟩).2
      = ⟨some "saml-req",
          some ((⟨some "saml-req", none, none⟩ : Params).RelayState.getD "")⟩ :=
  login_begin_behavior ⟨none, some "state", none⟩
    ⟨some "saml-req", none, none⟩ ⟨none, none⟩ "saml-req"
    (Or.inl rfl) rfl (by decide)

/-- Claim C8: a session lacking the SAMLRequest key or the RelayState
key makes `login_process` (after the authentication check) return one
of its two error strings with zero handler trials started, i.e. before
any handler is constructed or resolution attempted. -/
theorem login_process_missing_session_state (session : Session)
    (handlers : List SPHandler)
    (hmiss : session.SAMLRequest = none ∨ session.RelayState = none) :
    ((login_process session handlers).1
        = ProcessResult.errorPage "SAMLRequest is misssing"
      ∨ (login_process session handlers).1
        = ProcessResult.errorPage "RelayState is missing")
    ∧ (login_process session handlers).2 = 0 := by
  rcases session with ⟨osr, ors⟩
  rcases hmiss with h | h
  · have h2 : osr = none := h
    subst h2
    exact ⟨Or.inl rfl, rfl⟩
  · have h2 : ors = none := h
    subst h2
    cases osr with
    | none => exact ⟨Or.inl rfl, rfl⟩
    | some sr => exact ⟨Or.inr rfl, rfl⟩

/-- Witness for `login_process_missing_session_state`: SAMLRequest
present, RelayState absent, one configured handler that is never
tried. -/
theorem login_process_missing_session_state_witness :
    ((login_process ⟨some "saml-req", none⟩ [acceptingHandler "ctx"]).1
        = ProcessResult.errorPage "SAMLRequest is misssing"
      ∨ (login_process ⟨some "saml-req", none⟩ [acceptingHandler "ctx"]).1
        = ProcessResult.errorPage "RelayState is missing")
    ∧ (login_process ⟨some "saml-req", none⟩ [acceptingHandler "ctx"]).2
      = 0 :=
  login_process_missing_session_state ⟨some "saml-req", none⟩
    [acceptingHandler "ctx"] (Or.inr rfl)

/-- Claim C9 (code bug): the `logout` view does invoke `logout()` on
the IdP context and does redirect exactly when a supplied `RelayState`
or `redirect_to` parameter is non-empty and accepted by
`is_valid_redirect`; but on every other path the source executes
`return {"idp": idp, **context}` with `context` undefined, so instead
of rendering the generic logged-out page it raises `NameError` — shown
here for a request with no redirect parameter at all and for one whose
redirect target no handler accepts. -/
theorem logout_fallthrough_name_error :
    (logout ⟨none, none, none⟩
        [redirectHandler "https://sp.example/logged-out/"]).1
      = LogoutResult.raised (Exc.NameError "name \x27context\x27 is not defined")
    ∧ (logout ⟨none, none, none⟩
        [redirectHandler "https://sp.example/logged-out/"]).1
      ≠ LogoutResult.loggedOutPage
    ∧ (logout ⟨none, none, none⟩
        [redirectHandler "https://sp.example/logged-out/"]).2 = true
    ∧ (logout ⟨none, some "https://evil.example/", none⟩
        [redirectHandler "https://sp.example/logged-out/"]).1
      = LogoutResult.raised (Exc.NameError "name \x27context\x27 is not defined")
    ∧ (logout ⟨none, some "https://sp.example/logged-out/", none⟩
        [redirectHandler "https://sp.example/logged-out/"]).1
      = LogoutResult.redirect "https://sp.example/logged-out/"
    ∧ (logout ⟨none, none, some "https://sp.example/logged-out/"⟩
        [redirectHandler "https://sp.example/logged-out/"]).1
      = LogoutResult.redirect "https://sp.example/logged-out/" := by
  decide

/-- Claim C10: whenever `login_begin` succeeds (returns a redirect),
the session it leaves behind holds the SAMLRequest parameter's value
and holds RelayState as the RelayState parameter's value or the empty
string when that parameter was absent; hence both keys are present and
`login_process` on that session can never take its
"RelayState is missing" branch. -/
theorem login_begin_success_session_invariant (params : Params)
    (session session2 : Session) (route : String)
    (handlers : List SPHandler)
    (hsucc : login_begin params session
      = (BeginResult.redirect route, session2)) :
    session2.SAMLRequest = params.SAMLRequest
    ∧ session2.SAMLRequest.isSome = true
    ∧ session2.RelayState = some (params.RelayState.getD "")
    ∧ (login_process session2 handlers).1
      ≠ ProcessResult.errorPage "RelayState is missing" := by
  cases hp : params.SAMLRequest with
  | none =>
    simp only [login_begin, hp] at hsucc
    simp at hsucc
  | some sr =>
    simp only [login_begin, hp] at hsucc
    by_cases hsr : sr = ""
    · simp [hsr] at hsucc
    · rw [if_neg hsr, Prod.mk.injEq] at hsucc
      obtain ⟨hroute, hsession⟩ := hsucc
      subst hsession
      refine ⟨rfl, rfl, rfl, ?_⟩
      rcases hres : resolve handlers sr (params.RelayState.getD "")
        with ⟨r, n⟩
      cases r <;> simp [login_process, hres]

/-- Witness for `login_begin_success_session_invariant` at a concrete
successful begin step with no RelayState parameter. -/
theorem login_begin_success_session_invariant_witness :
    (⟨some "saml-req", some ""⟩ : Session).SAMLRequest
      = (⟨some "saml-req", none, none⟩ : Params).SAMLRequest
    ∧ (⟨some "saml-req", some ""⟩ : Session).SAMLRequest.isSome = true
    ∧ (⟨some "saml-req", some ""⟩ : Session).RelayState
      = some ((⟨some "saml-req", none, none⟩ : Params).RelayState.getD "")
    ∧ (login_process ⟨some "saml-req", some ""⟩ [rejectingHandler]).1
      ≠ ProcessResult.errorPage "RelayState is missing" :=
  login_begin_success_session_invariant ⟨some "saml-req", none, none⟩
    ⟨none, none⟩ ⟨some "saml-req", some ""⟩
    "pyramid_saml2_idp_login_process" [rejectingHandler] (by decide)

end PyramidSaml2
